import Mathlib

/-!
Shallow embedding of prettymaps' fetch module (src/prettymaps/fetch.py).

Geometry model: a planar geometry is a finite set of integer grid points
(`Finset (ℤ × ℤ)`).  The shapely operations used by the source are given
their concrete discrete meaning: `intersection` is set intersection,
`unary_union` is the union of a GeoDataFrame's geometries, `buffer r` is
Chebyshev dilation for `r ≥ 0` and Chebyshev erosion for `r < 0` (so
`buffer 0` is the identity, as in shapely), `bounds`/`box` give the filled
bounding rectangle, and `is_empty` is emptiness of the point set.
Distances are modelled as integers.

Coordinate reference systems are tracked as a tag on each GeoDataFrame;
`ox.project_gdf` / `.to_crs(4326)` are modelled as exact, mutually inverse
reprojections, i.e. they change only the CRS tag (the idealisation of an
exact round trip; fetch.py only ever projects, buffers in projected
coordinates, and unprojects).

All network-facing osmnx calls (`geocode`, `geocode_to_gdf`,
`graph_from_polygon`, `graph_to_gdfs`, `geometries_from_polygon`), the
shapely `rotate` affine transform, and the elevation helpers are oracle
functions collected in an `OSMEnv` environment; fallible ones return
`Except PyErr`.  Python exceptions are modelled by the `Except` monad:
an error raised inside a function propagates to its caller unless the
translation shows an explicit handler (fetch.py has none).
-/

/-- A geometry is a finite set of integer grid points. -/
abbrev Geometry := Finset (ℤ × ℤ)

/-- The Chebyshev ball of radius r around a grid point (a filled square). -/
def chebBall (p : ℤ × ℤ) (r : ℤ) : Geometry :=
  Finset.Icc (p.1 - r) (p.1 + r) ×ˢ Finset.Icc (p.2 - r) (p.2 + r)

/-- Shapely buffer on the grid: dilation by r for r ≥ 0 (buffer 0 is the
identity), erosion by |r| for r < 0. -/
def Geometry.buffer (r : ℤ) (g : Geometry) : Geometry :=
  if 0 ≤ r then g.biUnion (fun p => chebBall p r)
  else g.filter (fun p => chebBall p (-r) ⊆ g)

/-- Shapely box(*g.bounds): the filled axis-aligned bounding rectangle.
For the empty geometry (where Python's bounds are NaN) we take the empty
region. -/
def Geometry.bboxGeom (g : Geometry) : Geometry :=
  match (g.image Prod.fst).min, (g.image Prod.fst).max,
        (g.image Prod.snd).min, (g.image Prod.snd).max with
  | some x0, some x1, some y0, some y1 => Finset.Icc x0 x1 ×ˢ Finset.Icc y0 y1
  | _, _, _, _ => ∅

/-- Coordinate reference system tag of a GeoDataFrame. -/
inductive CRS
  | epsg4326
  | projected
deriving DecidableEq

/-- One row of a GeoDataFrame: an index and its geometry column. -/
structure GRow where
  idx : Nat
  geom : Geometry
deriving DecidableEq

/-- A GeoDataFrame: an ordered list of rows plus a CRS tag. -/
structure GeoDataFrame where
  rows : List GRow
  crs : CRS
deriving DecidableEq

/-- ox.project_gdf: exact reprojection to a projected CRS (UTM); in this
model only the CRS tag changes. -/
def project_gdf (g : GeoDataFrame) : GeoDataFrame := ⟨g.rows, CRS.projected⟩

/-- gdf.to_crs(4326): exact reprojection back to EPSG:4326. -/
def to_crs4326 (g : GeoDataFrame) : GeoDataFrame := ⟨g.rows, CRS.epsg4326⟩

/-- gdf.geometry = gdf.geometry.map f (e.g. GeoSeries.buffer): apply a
geometry operation to every row's geometry column. -/
def mapGeom (f : Geometry → Geometry) (g : GeoDataFrame) : GeoDataFrame :=
  ⟨g.rows.map (fun r => ⟨r.idx, f r.geom⟩), g.crs⟩

/-- shapely.ops.unary_union of a GeoDataFrame's geometry column. -/
def unary_union (g : GeoDataFrame) : Geometry :=
  g.rows.foldr (fun r acc => r.geom ∪ acc) ∅

/-- A Python value appearing in a layer's keyword-argument dictionary. -/
inductive PVal
  | none_
  | int (n : ℤ)
  | str (s : String)
  | bool (b : Bool)
  | strDict (s : String)
deriving DecidableEq

/-- Python truthiness of a PVal. -/
def PVal.toBool : PVal → Bool
  | .none_ => false
  | .bool b => b
  | .int n => n != 0
  | .str s => s != ""
  | .strDict _ => true

/-- Numeric reading of a PVal; None reads as 0, matching the explicit
`if dilate == None: dilate = 0` normalisation in get_gdf (values of other
shapes would be a Python type error downstream and are outside the
modelled well-typed configurations). -/
def PVal.toIntOr0 : PVal → ℤ
  | .int n => n
  | _ => 0

/-- String reading of a PVal (osmid options are strings). -/
def PVal.toStr : PVal → String
  | .str s => s
  | _ => ""

/-- A Python keyword-argument dictionary, in insertion order. -/
abbrev Kwargs := List (String × PVal)

/-- Association-list lookup (Python dict indexing / membership test). -/
def alookup {α : Type} : List (String × α) → String → Option α
  | [], _ => none
  | (k, v) :: rest, key => if key = k then some v else alookup rest key

/-- Remove a key from an association list (the mutation performed by
dict.pop on the dictionary it is called on). -/
def eraseKey {α : Type} : List (String × α) → String → List (String × α)
  | [], _ => []
  | (k, v) :: rest, key =>
      if k = key then eraseKey rest key else (k, v) :: eraseKey rest key

/-- Python keyword-parameter binding: the value supplied for key, or the
declared default. -/
def Kwargs.getD (k : Kwargs) (key : String) (dflt : PVal) : PVal :=
  (alookup k key).getD dflt

/-- copy.deepcopy of a kwargs dictionary: a fresh value; in this pure
embedding the copy is the same value, and mutating the copy (e.g. pop)
leaves the original dictionary untouched. -/
def deepcopy (k : Kwargs) : Kwargs := k

/-- Python errors raised by the modelled code and libraries. -/
inductive PyErr
  | keyError (k : String)
  | libError (msg : String)
deriving DecidableEq

instance {ε α : Type} [DecidableEq ε] [DecidableEq α] : DecidableEq (Except ε α) :=
  fun a b =>
    match a, b with
    | .ok x, .ok y =>
        if h : x = y then .isTrue (by rw [h]) else .isFalse (by simp [h])
    | .ok _, .error _ => .isFalse (by simp)
    | .error _, .ok _ => .isFalse (by simp)
    | .error e, .error f =>
        if h : e = f then .isTrue (by rw [h]) else .isFalse (by simp [h])

/-- A query, one of the four externally-defined shapes accepted by
fetch.py: a pre-built polygon region (GeoDataFrame), a (lat, lng)
coordinate tuple, or a string (named address or OSM id). -/
inductive Query
  | gdf (g : GeoDataFrame)
  | coords (lat lng : ℤ)
  | str (s : String)
deriving DecidableEq

/-- The prefix test of re.match("[A-Z][0-9]+", s) on a character list:
the match succeeds exactly when the string starts with an ASCII uppercase
letter followed by an ASCII digit (the rest of the string is ignored). -/
def osmidRegexChars : List Char → Bool
  | c1 :: c2 :: _ => decide ('A' ≤ c1) && decide (c1 ≤ 'Z') && c2.isDigit
  | _ => false

/-- re.match("[A-Z][0-9]+", s) viewed as a Boolean test. -/
def matchesOsmidRegex (s : String) : Bool := osmidRegexChars s.data

/-- parse_query (fetch.py lines 40-48): classify a query as polygon,
coordinates, osmid or address. -/
def parse_query : Query → String
  | .gdf _ => "polygon"
  | .coords _ _ => "coordinates"
  | .str s => if matchesOsmidRegex s then "osmid" else "address"

/-- Modelled from the spec: the externally-defined shape of an OSM-id
string (the by_osmid format the module hands to the geocoder), which the
repository never defines itself — an OSM element-type letter N, W or R
followed by one or more decimal digits and nothing else. -/
def osmIdChars : List Char → Bool
  | c :: rest =>
      (c == 'N' || c == 'W' || c == 'R') && !rest.isEmpty && rest.all Char.isDigit
  | [] => false

/-- Modelled from the spec: s is an OSM-id string. -/
def isOSMIdString (s : String) : Bool := osmIdChars s.data

/-- A graph returned by ox.graph_from_polygon, abstracted to the rows that
ox.graph_to_gdfs will read off it. -/
abbrev OXGraph := List GRow

/-- An elevation raster, used only by the spec-modelled elevation helpers. -/
abbrev Elevation := Geometry

/-- The environment of external library calls fetch.py delegates to.
Network-facing osmnx calls and the elevation helpers may raise (Except);
pure geometry transforms (graph_to_gdfs, rotate) do not.  The fields
get_elevation, mask_elevation, get_hillshade and get_level_curves are
modelled from the spec: the repository functions of those names are not
under src/ (only their call sites in fetch.py are), and the spec describes
them only as the shaded-relief / contour derivation for the hillshade and
level_curves layers, so they are kept abstract; the rendering options
(pad, azdeg, altdeg, vert_exag, min_height, max_height, n_curves) are
passed through to them as the kwargs dictionary. -/
structure OSMEnv where
  geocode : Query → Except PyErr (ℤ × ℤ)
  geocode_to_gdf : Query → Bool → Kwargs → Except PyErr GeoDataFrame
  graph_from_polygon : Geometry → PVal → Bool → Except PyErr OXGraph
  graph_to_gdfs : OXGraph → Bool → GeoDataFrame
  geometries_from_polygon : Geometry → PVal → Except PyErr GeoDataFrame
  rotate : ℤ → Geometry → Geometry
  get_elevation : PVal → Except PyErr Elevation
  mask_elevation : Elevation → GeoDataFrame → Elevation
  get_hillshade : Elevation → Kwargs → Except PyErr GeoDataFrame
  get_level_curves : Elevation → Kwargs → Except PyErr GeoDataFrame

/-- Python truthiness of an optional number (`if radius:`): None and 0 are
falsy, any other number is truthy. -/
def optTruthy : Option ℤ → Bool
  | none => false
  | some r => r != 0

/-- get_boundary (fetch.py lines 52-87): circular or rectangular boundary
around a point.  The point is the query itself when it is a coordinate
tuple (parse_query == "coordinates"), else the geocoded query;
Point(point[::-1]) swaps it to (lng, lat) = (x, y).  In the rectangular
branch, x and y are read back off the single point geometry just stored in
the boundary GeoDataFrame (np.concatenate(boundary.geometry[0].xy)). -/
def get_boundary (env : OSMEnv) (query : Query) (radius ratio : ℤ)
    (circle : Bool) (rot : ℤ) : Except PyErr GeoDataFrame := do
  let point ← match query with
    | .coords la ln => Except.ok (la, ln)
    | q => env.geocode q
  let x := point.2
  let y := point.1
  let boundary : GeoDataFrame := project_gdf ⟨[⟨0, {(x, y)}⟩], CRS.epsg4326⟩
  let boundary :=
    if circle then
      mapGeom (Geometry.buffer radius) boundary
    else
      let dx := radius * ratio
      let dy := radius
      ⟨[⟨0, env.rotate rot
            (Finset.Icc (x - dx) (x + dx) ×ˢ Finset.Icc (y - dy) (y + dy))⟩],
       boundary.crs⟩
  Except.ok (to_crs4326 boundary)

/-- The dilation step of get_perimeter (fetch.py lines 119-120): buffer
every geometry by dilate when it is not None. -/
def dilateStep (dilate : Option ℤ) (perimeter : GeoDataFrame) : GeoDataFrame :=
  match dilate with
  | some d => mapGeom (Geometry.buffer d) perimeter
  | none => perimeter

/-- The perimeter acquisition of get_perimeter (fetch.py lines 101-115):
a truthy radius builds a circular or rectangular boundary; otherwise a
GeoDataFrame query (parse_query == "polygon") is the perimeter itself,
and any other query is geocoded with ox.geocode_to_gdf.  The Python
signature is get_perimeter(query, radius=None, ratio=1, by_osmid=False,
circle=False, dilate=None, rotation=0, **kwargs); get_gdfs calls it with
the remaining perimeter-layer options unpacked as keyword arguments, so
here those options arrive as the pkwargs dictionary, from which by_osmid
and circle bind to the named parameters and the rest is forwarded to
ox.geocode_to_gdf. -/
def perimeterSource (env : OSMEnv) (query : Query) (radius : Option ℤ)
    (ratio : ℤ) (rot : ℤ) (pkwargs : Kwargs) : Except PyErr GeoDataFrame :=
  if optTruthy radius then
    get_boundary env query (radius.getD 0) ratio
      ((pkwargs.getD "circle" (PVal.bool false)).toBool) rot
  else
    match query with
    | .gdf g => Except.ok g
    | q =>
        env.geocode_to_gdf q ((pkwargs.getD "by_osmid" (PVal.bool false)).toBool)
          (eraseKey (eraseKey pkwargs "by_osmid") "circle")

/-- get_perimeter (fetch.py lines 91-123): acquire the perimeter
(lines 101-115, perimeterSource above), then project, apply dilateStep
and unproject to EPSG:4326 (lines 117-121). -/
def get_perimeter (env : OSMEnv) (query : Query) (radius : Option ℤ)
    (ratio : ℤ) (dilate : Option ℤ) (rot : ℤ) (pkwargs : Kwargs) :
    Except PyErr GeoDataFrame :=
  (perimeterSource env query radius ratio rot pkwargs).bind
    fun perimeter =>
      Except.ok (to_crs4326 (dilateStep dilate (project_gdf perimeter)))

/-- The perimeter preparation of get_gdf (fetch.py lines 152-156):
project the perimeter, buffer every geometry by dilate +
perimeter_tolerance, unproject, take the unary union of the geometry
column and buffer(0) it. -/
def perimeterWithTolerance (perimeter : GeoDataFrame) (k : ℤ) : Geometry :=
  (unary_union (to_crs4326 (mapGeom (Geometry.buffer k)
     (project_gdf perimeter)))).buffer 0

/-- The tags argument handed to ox.geometries_from_polygon
(fetch.py lines 188-189): a bare string tag t becomes the dict
mapping t to True, anything else is passed through. -/
def tagsArg : PVal → PVal
  | .str s => .strDict s
  | v => v

/-- The buffer distance applied to the perimeter in get_gdf: the layer's
dilate option plus its perimeter_tolerance option, both defaulting to 0
under Python parameter binding (fetch.py lines 130-131), with an explicit
None dilate re-read as 0 (lines 146-147). -/
def clipRadius (kwargs : Kwargs) : ℤ :=
  (kwargs.getD "dilate" (PVal.int 0)).toIntOr0 +
    (kwargs.getD "perimeter_tolerance" (PVal.int 0)).toIntOr0

/-- The fetch stage of get_gdf (fetch.py lines 161-198): the layer name
selects elevation-derived layers (spec-modelled helpers over a masked
elevation raster), street-network layers fetched as a graph from the
perimeter's bounding box and converted to edge GeoDataFrames, the
coastline / generic tag query against the bounding box, or a direct
OSM-id lookup when the osmid option is set.  The tags, osmid and
custom_filter options bind to the named Python parameters with default
None. -/
def fetchLayer (env : OSMEnv) (layer : String) (perimeter : GeoDataFrame)
    (kwargs : Kwargs) (bbox : Geometry) : Except PyErr GeoDataFrame :=
  if layer = "hillshade" then
    (env.get_elevation (kwargs.getD "elevation" PVal.none_)).bind fun elev =>
      env.get_hillshade (env.mask_elevation elev perimeter) kwargs
  else if layer = "level_curves" then
    (env.get_elevation (kwargs.getD "elevation" PVal.none_)).bind fun elev =>
      env.get_level_curves (env.mask_elevation elev perimeter) kwargs
  else if layer = "streets" ∨ layer = "railway" ∨ layer = "waterway" then
    (env.graph_from_polygon bbox (kwargs.getD "custom_filter" PVal.none_) true).map
      fun graph => env.graph_to_gdfs graph false
  else if layer = "coastline" then
    env.geometries_from_polygon bbox (tagsArg (kwargs.getD "tags" PVal.none_))
  else
    match kwargs.getD "osmid" PVal.none_ with
    | .none_ => env.geometries_from_polygon bbox (tagsArg (kwargs.getD "tags" PVal.none_))
    | v => env.geocode_to_gdf (Query.str v.toStr) true []

/-- get_gdf (fetch.py lines 127-205): buffer the perimeter by
dilate + perimeter_tolerance (lines 152-156), derive its bounding box
(line 159), fetch the layer (lines 161-198), then intersect every row's
geometry with the buffered perimeter and drop rows whose geometry became
empty (lines 200-203). -/
def get_gdf (env : OSMEnv) (layer : String) (perimeter : GeoDataFrame)
    (kwargs : Kwargs) : Except PyErr GeoDataFrame :=
  let perimeter_with_tolerance := perimeterWithTolerance perimeter (clipRadius kwargs)
  let bbox := perimeter_with_tolerance.bboxGeom
  (fetchLayer env layer perimeter kwargs bbox).map fun gdf =>
    ⟨(gdf.rows.map fun r => GRow.mk r.idx (r.geom ∩ perimeter_with_tolerance)).filter
        (fun r => !(r.geom = (∅ : Geometry))), gdf.crs⟩

/-- The dict comprehension of get_gdfs (fetch.py lines 227-233): evaluate
get_gdf for every non-perimeter layer in insertion order; the first error
raised propagates. -/
def layerResults (env : OSMEnv) (perimeter : GeoDataFrame) :
    List (String × Kwargs) → Except PyErr (List (String × GeoDataFrame))
  | [] => Except.ok []
  | (layer, kw) :: rest =>
      if layer = "perimeter" then layerResults env perimeter rest
      else do
        let g ← get_gdf env layer perimeter kw
        let tail ← layerResults env perimeter rest
        Except.ok ((layer, g) :: tail)

/-- The perimeter_kwargs preparation of get_gdfs (fetch.py lines
210-213): when layers_dict has a "perimeter" entry, deep-copy it and pop
"dilate" from the copy; pop without a default raises KeyError when the
key is absent.  Otherwise perimeter_kwargs stays the empty dict. -/
def perimeterKwargsStep (layers_dict : List (String × Kwargs)) : Except PyErr Kwargs :=
  match alookup layers_dict "perimeter" with
  | none => Except.ok ([] : Kwargs)
  | some pk =>
      match alookup (deepcopy pk) "dilate" with
      | none => Except.error (PyErr.keyError "dilate")
      | some _ => Except.ok (eraseKey (deepcopy pk) "dilate")

/-- get_gdfs (fetch.py lines 209-235).  The first component is the
returned dictionary (or the propagated error); the second component is
layers_dict as the caller sees it after the call — the only dictionary
mutation in the body, perimeter_kwargs.pop("dilate"), is applied to
deepcopy(layers_dict["perimeter"]) (lines 212-213, perimeterKwargsStep
above), so the caller's dictionary is returned unchanged.  The result
dictionary is seeded with the perimeter and extended with the
non-perimeter layers in insertion order. -/
def get_gdfs (env : OSMEnv) (query : Query) (layers_dict : List (String × Kwargs))
    (radius : Option ℤ) (ratio : ℤ) (dilate : Option ℤ) (rot : ℤ) :
    Except PyErr (List (String × GeoDataFrame)) × List (String × Kwargs) :=
  let res : Except PyErr (List (String × GeoDataFrame)) :=
    (perimeterKwargsStep layers_dict).bind fun perimeter_kwargs =>
      (get_perimeter env query radius ratio dilate rot perimeter_kwargs).bind
        fun perimeter =>
          (layerResults env perimeter layers_dict).bind fun pairs =>
            Except.ok (("perimeter", perimeter) :: pairs)
  (res, layers_dict)

/-- A one-point polygon GeoDataFrame at the origin, used as a concrete
perimeter and fetch result. -/
def gUnit : GeoDataFrame := ⟨[⟨0, {((0 : ℤ), (0 : ℤ))}⟩], CRS.epsg4326⟩

/-- A one-point GeoDataFrame at (1, 1). -/
def gOff : GeoDataFrame := ⟨[⟨0, {((1 : ℤ), (1 : ℤ))}⟩], CRS.epsg4326⟩

/-- A one-point GeoDataFrame at (5, 5), far from the origin. -/
def gFar : GeoDataFrame := ⟨[⟨0, {((5 : ℤ), (5 : ℤ))}⟩], CRS.epsg4326⟩

/-- A concrete oracle environment whose fetch calls all return the given
GeoDataFrame and whose geocoder returns the origin. -/
def baseEnv (fetch : GeoDataFrame) : OSMEnv where
  geocode := fun _ => Except.ok (0, 0)
  geocode_to_gdf := fun _ _ _ => Except.ok fetch
  graph_from_polygon := fun _ _ _ => Except.ok fetch.rows
  graph_to_gdfs := fun gr _ => ⟨gr, CRS.projected⟩
  geometries_from_polygon := fun _ _ => Except.ok fetch
  rotate := fun _ g => g
  get_elevation := fun _ => Except.ok ∅
  mask_elevation := fun e _ => e
  get_hillshade := fun _ _ => Except.ok fetch
  get_level_curves := fun _ _ => Except.ok fetch

/-- Environment fetching the origin point. -/
def envA : OSMEnv := baseEnv gUnit

/-- Environment fetching the point (1, 1). -/
def envB : OSMEnv := baseEnv gOff

/-- Environment fetching the point (5, 5). -/
def envFar : OSMEnv := baseEnv gFar

/-- Environment whose geometry fetch raises a library error. -/
def envErr : OSMEnv :=
  { baseEnv gUnit with
    geometries_from_polygon := fun _ _ => Except.error (PyErr.libError "overpass") }

/-- Environment whose geocoder cannot resolve any query: geocode_to_gdf
raises the library's unresolvable-address error. -/
def envGeoErr : OSMEnv :=
  { baseEnv gUnit with
    geocode_to_gdf := fun _ _ _ => Except.error (PyErr.libError "unresolvable") }

theorem get_gdfs_fst_eq (env : OSMEnv) (query : Query)
    (layers_dict : List (String × Kwargs)) (radius : Option ℤ) (ratio : ℤ)
    (dilate : Option ℤ) (rot : ℤ) :
    (get_gdfs env query layers_dict radius ratio dilate rot).1 =
      (perimeterKwargsStep layers_dict).bind
        (fun perimeter_kwargs =>
          (get_perimeter env query radius ratio dilate rot perimeter_kwargs).bind
            (fun perimeter =>
              (layerResults env perimeter layers_dict).bind
                (fun pairs =>
                  Except.ok (("perimeter", perimeter) :: pairs)))) := rfl

theorem mem_foldr_union (p : ℤ × ℤ) (l : List GRow) :
    p ∈ l.foldr (fun r acc => r.geom ∪ acc) ∅ ↔ ∃ r ∈ l, p ∈ r.geom := by
  induction l with
  | nil => simp
  | cons a t ih => simp [List.foldr, ih]

theorem mem_unary_union {p : ℤ × ℤ} {g : GeoDataFrame} :
    p ∈ unary_union g ↔ ∃ r ∈ g.rows, p ∈ r.geom :=
  mem_foldr_union p g.rows

theorem geom_subset_unary_union {g : GeoDataFrame} {row : GRow}
    (h : row ∈ g.rows) : row.geom ⊆ unary_union g :=
  fun _p hp => mem_unary_union.mpr ⟨row, h, hp⟩

theorem buffer_zero (g : Geometry) : Geometry.buffer 0 g = g := by
  unfold Geometry.buffer
  rw [if_pos (le_refl 0)]
  ext p
  simp only [Finset.mem_biUnion, chebBall, Finset.mem_product, Finset.mem_Icc,
    sub_zero, add_zero]
  constructor
  · rintro ⟨q, hq, ⟨h1a, h1b⟩, h2a, h2b⟩
    have hq1 : q.1 = p.1 := le_antisymm h1a h1b
    have hq2 : q.2 = p.2 := le_antisymm h2a h2b
    have : q = p := Prod.ext_iff.mpr ⟨hq1, hq2⟩
    rwa [this] at hq
  · intro hp
    exact ⟨p, hp, ⟨le_refl _, le_refl _⟩, le_refl _, le_refl _⟩

theorem buffer_mono (r : ℤ) {s t : Geometry} (h : s ⊆ t) :
    Geometry.buffer r s ⊆ Geometry.buffer r t := by
  unfold Geometry.buffer
  by_cases hr : 0 ≤ r
  · rw [if_pos hr, if_pos hr]
    intro p hp
    rw [Finset.mem_biUnion] at hp ⊢
    obtain ⟨q, hq, hpq⟩ := hp
    exact ⟨q, h hq, hpq⟩
  · rw [if_neg hr, if_neg hr]
    intro p hp
    rw [Finset.mem_filter] at hp ⊢
    exact ⟨h hp.1, hp.2.trans h⟩

theorem mem_buffer_self {r : ℤ} (hr : 0 ≤ r) {p : ℤ × ℤ} {g : Geometry}
    (hp : p ∈ g) : p ∈ Geometry.buffer r g := by
  unfold Geometry.buffer
  rw [if_pos hr, Finset.mem_biUnion]
  refine ⟨p, hp, ?_⟩
  simp only [chebBall, Finset.mem_product, Finset.mem_Icc]
  constructor
  · constructor <;> linarith
  · constructor <;> linarith

theorem buffer_nonempty {r : ℤ} (hr : 0 ≤ r) {g : Geometry} (hg : g ≠ ∅) :
    Geometry.buffer r g ≠ ∅ := by
  obtain ⟨p, hp⟩ := Finset.nonempty_iff_ne_empty.mpr hg
  exact Finset.nonempty_iff_ne_empty.mp ⟨p, mem_buffer_self hr hp⟩

theorem perimeterWithTolerance_subset (P : GeoDataFrame) (k : ℤ) :
    perimeterWithTolerance P k ⊆ Geometry.buffer k (unary_union P) := by
  unfold perimeterWithTolerance
  rw [buffer_zero]
  intro p hp
  rw [mem_unary_union] at hp
  obtain ⟨row, hrow, hpin⟩ := hp
  have hrow2 : row ∈ P.rows.map
      (fun r => GRow.mk r.idx (Geometry.buffer k r.geom)) := hrow
  rw [List.mem_map] at hrow2
  obtain ⟨r0, hr0, hfr⟩ := hrow2
  rw [← hfr] at hpin
  exact buffer_mono k (geom_subset_unary_union hr0) hpin

theorem except_map_ok {ε α β : Type} {f : α → β} {x : Except ε α} {out : β}
    (h : Except.map f x = Except.ok out) : ∃ a, x = Except.ok a ∧ out = f a := by
  cases x with
  | ok a =>
      refine ⟨a, rfl, ?_⟩
      have : Except.ok (f a) = (Except.ok out : Except ε β) := h
      injection this with h2
      exact h2.symm
  | error e => exact absurd h (by simp [Except.map])

theorem except_bind_ok {ε α β : Type} {x : Except ε α} {f : α → Except ε β} {b : β}
    (h : x.bind f = Except.ok b) : ∃ a, x = Except.ok a ∧ f a = Except.ok b := by
  cases x with
  | ok a => exact ⟨a, rfl, h⟩
  | error e => exact absurd h (by simp [Except.bind])

theorem except_ok_bind {ε α β : Type} (a : α) (f : α → Except ε β) :
    (Except.ok a : Except ε α).bind f = f a := rfl

theorem except_error_bind {ε α β : Type} (e : ε) (f : α → Except ε β) :
    (Except.error e : Except ε α).bind f = Except.error e := rfl

theorem get_gdf_eq_map (env : OSMEnv) (layer : String) (perimeter : GeoDataFrame)
    (kwargs : Kwargs) :
    get_gdf env layer perimeter kwargs =
      Except.map (fun gdf : GeoDataFrame =>
        ⟨(gdf.rows.map fun r =>
            GRow.mk r.idx (r.geom ∩ perimeterWithTolerance perimeter (clipRadius kwargs))).filter
          (fun r => !(r.geom = (∅ : Geometry))), gdf.crs⟩)
        (fetchLayer env layer perimeter kwargs
          ((perimeterWithTolerance perimeter (clipRadius kwargs)).bboxGeom)) := rfl

theorem get_gdf_rows_spec {env : OSMEnv} {layer : String} {perimeter : GeoDataFrame}
    {kwargs : Kwargs} {out : GeoDataFrame}
    (h : get_gdf env layer perimeter kwargs = Except.ok out) :
    ∀ r ∈ out.rows, r.geom ≠ (∅ : Geometry) ∧
      r.geom ⊆ perimeterWithTolerance perimeter (clipRadius kwargs) := by
  rw [get_gdf_eq_map] at h
  obtain ⟨g, hg, hout⟩ := except_map_ok h
  have hrows : out.rows =
      (g.rows.map fun r =>
        GRow.mk r.idx (r.geom ∩ perimeterWithTolerance perimeter (clipRadius kwargs))).filter
        (fun r => !(r.geom = (∅ : Geometry))) := by
    rw [hout]
  intro r hr
  rw [hrows, List.mem_filter] at hr
  obtain ⟨hmem, hpred⟩ := hr
  constructor
  · simp only [Bool.not_eq_true', decide_eq_false_iff_not] at hpred
    exact hpred
  · rw [List.mem_map] at hmem
    obtain ⟨r0, _hr0, hfr⟩ := hmem
    rw [← hfr]
    exact Finset.inter_subset_right

/-- C3: parse_query's four-way classification is by shape and, for
strings, by the prefix regex [A-Z][0-9]+ — but that regex does not match
OSM-id strings precisely: the named address "A1 Cafe" is classified as
"osmid" although it is not an OSM-id string. -/
theorem parse_query_osmid_imprecise_cex :
    parse_query (Query.str "A1 Cafe") = "osmid" ∧ isOSMIdString "A1 Cafe" = false :=
  ⟨by decide, by decide⟩

/-- C3 (amended): parse_query maps a GeoDataFrame to "polygon", a
coordinate tuple to "coordinates", and a string to "osmid" exactly when
it starts with an ASCII uppercase letter followed by a digit (so every
OSM-id string is classified "osmid") and to "address" otherwise. -/
theorem parse_query_classification (g : GeoDataFrame) (a b : ℤ) (s : String) :
    parse_query (Query.gdf g) = "polygon" ∧
    parse_query (Query.coords a b) = "coordinates" ∧
    (isOSMIdString s = true → parse_query (Query.str s) = "osmid") ∧
    (matchesOsmidRegex s = false → parse_query (Query.str s) = "address") := by
  refine ⟨rfl, rfl, ?_, ?_⟩
  · intro h
    have hm : matchesOsmidRegex s = true := by
      unfold isOSMIdString at h
      unfold matchesOsmidRegex
      cases hl : s.data with
      | nil => rw [hl] at h; exact absurd h (by simp [osmIdChars])
      | cons c rest =>
        rw [hl] at h
        cases rest with
        | nil => exact absurd h (by simp [osmIdChars])
        | cons c2 r2 =>
          simp only [osmIdChars, List.isEmpty_cons, Bool.not_false, Bool.and_true,
            List.all_cons, Bool.and_eq_true, Bool.or_eq_true, beq_iff_eq] at h
          obtain ⟨hc, hd, _⟩ := h
          simp only [osmidRegexChars, Bool.and_eq_true, decide_eq_true_eq]
          refine ⟨⟨?_, ?_⟩, hd⟩ <;>
            (rcases hc with (rfl | rfl) | rfl <;> decide)
    simp [parse_query, hm]
  · intro h
    simp [parse_query, h]

/-- C3 witness: the OSM-id string R8654188 is classified "osmid" and the
plain address string Rio de Janeiro is classified "address". -/
theorem parse_query_classification_w :
    isOSMIdString "R8654188" = true ∧
    parse_query (Query.str "R8654188") = "osmid" ∧
    matchesOsmidRegex "Rio de Janeiro" = false ∧
    parse_query (Query.str "Rio de Janeiro") = "address" :=
  ⟨by decide,
   (parse_query_classification gUnit 0 0 "R8654188").2.2.1 (by decide),
   by decide,
   (parse_query_classification gUnit 0 0 "Rio de Janeiro").2.2.2 (by decide)⟩

/-- C10: get_perimeter with radius = 0 behaves exactly like
radius = None, because the radius test on line 101 is a Python
truthiness test: the boundary branch is skipped and the polygon /
geocoding branch is taken. -/
theorem get_perimeter_radius_zero (env : OSMEnv) (query : Query) (ratio : ℤ)
    (dilate : Option ℤ) (rot : ℤ) (pkwargs : Kwargs) :
    get_perimeter env query (some 0) ratio dilate rot pkwargs =
      get_perimeter env query none ratio dilate rot pkwargs := rfl

/-- C8: get_gdfs leaves the caller's layers_dict unchanged: the only
dictionary mutation in its body, popping "dilate" from the perimeter
configuration, is applied to a deep copy (fetch.py lines 212-213). -/
theorem get_gdfs_preserves_layers_dict (env : OSMEnv) (query : Query)
    (layers_dict : List (String × Kwargs)) (radius : Option ℤ) (ratio : ℤ)
    (dilate : Option ℤ) (rot : ℤ) :
    (get_gdfs env query layers_dict radius ratio dilate rot).2 = layers_dict := rfl

/-- C9: when layers_dict has a "perimeter" entry whose configuration has
no "dilate" key, get_gdfs raises KeyError "dilate" — for every oracle
environment, i.e. before any fetch is consulted — because pop is called
without a default (fetch.py line 213). -/
theorem get_gdfs_missing_dilate_keyerror (env : OSMEnv) (query : Query)
    (layers_dict : List (String × Kwargs)) (radius : Option ℤ) (ratio : ℤ)
    (dilate : Option ℤ) (rot : ℤ) (pk : Kwargs)
    (hmem : alookup layers_dict "perimeter" = some pk)
    (hno : alookup pk "dilate" = none) :
    (get_gdfs env query layers_dict radius ratio dilate rot).1 =
      Except.error (PyErr.keyError "dilate") := by
  have h2 : alookup (deepcopy pk) "dilate" = none := hno
  have hstep : perimeterKwargsStep layers_dict =
      Except.error (PyErr.keyError "dilate") := by
    unfold perimeterKwargsStep
    simp only [hmem, h2]
  rw [get_gdfs_fst_eq, hstep]
  rfl

/-- C9 witness: a layers_dict whose perimeter configuration lacks
"dilate" makes get_gdfs fail with KeyError "dilate". -/
theorem get_gdfs_missing_dilate_keyerror_w :
    alookup [("perimeter", ([] : Kwargs))] "perimeter" = some [] ∧
    alookup ([] : Kwargs) "dilate" = none ∧
    (get_gdfs envA (Query.gdf gUnit) [("perimeter", [])] none 1 (some 0) 0).1 =
      Except.error (PyErr.keyError "dilate") :=
  ⟨by decide, by decide,
   get_gdfs_missing_dilate_keyerror envA (Query.gdf gUnit) [("perimeter", [])]
     none 1 (some 0) 0 [] (by decide) (by decide)⟩

/-- C4: a GeoDataFrame returned by get_gdf has no row with empty
geometry: after intersecting with the buffered perimeter, rows with
empty geometry are dropped (fetch.py line 203). -/
theorem get_gdf_drops_empty (env : OSMEnv) (layer : String)
    (perimeter : GeoDataFrame) (kwargs : Kwargs) (out : GeoDataFrame)
    (h : get_gdf env layer perimeter kwargs = Except.ok out) :
    ∀ r ∈ out.rows, r.geom ≠ (∅ : Geometry) :=
  fun r hr => (get_gdf_rows_spec h r hr).1

/-- C4 witness: a concrete successful get_gdf call whose result has no
empty-geometry row. -/
theorem get_gdf_drops_empty_w :
    get_gdf envA "building" gUnit [] = Except.ok gUnit ∧
    ∀ r ∈ gUnit.rows, r.geom ≠ (∅ : Geometry) :=
  ⟨by decide, get_gdf_drops_empty envA "building" gUnit [] gUnit (by decide)⟩

/-- C1 counterexample: with a positive perimeter_tolerance, get_gdf keeps
a geometry that lies outside the perimeter region (the fetched point
(1, 1) survives clipping against the origin perimeter buffered by 2 but
is not contained in the perimeter itself), so fetched layers are not
clipped to the perimeter polygon region as stated. -/
theorem get_gdf_not_clipped_to_perimeter_cex :
    get_gdf envB "building" gUnit [("perimeter_tolerance", PVal.int 2)] =
      Except.ok gOff ∧
    GRow.mk 0 {((1 : ℤ), (1 : ℤ))} ∈ gOff.rows ∧
    ¬ ({((1 : ℤ), (1 : ℤ))} : Geometry) ⊆ unary_union gUnit :=
  ⟨by decide, by decide, by decide⟩

/-- C1 (amended): every geometry in a layer returned by get_gdf is
contained in the perimeter region buffered by that layer's
dilate + perimeter_tolerance; in particular, when that buffer distance
is 0 (the defaults), it is contained in the perimeter polygon region
itself. -/
theorem get_gdf_clipped_to_buffered_perimeter (env : OSMEnv) (layer : String)
    (perimeter : GeoDataFrame) (kwargs : Kwargs) (out : GeoDataFrame)
    (h : get_gdf env layer perimeter kwargs = Except.ok out) :
    ∀ r ∈ out.rows,
      r.geom ⊆ Geometry.buffer (clipRadius kwargs) (unary_union perimeter) ∧
      (clipRadius kwargs = 0 → r.geom ⊆ unary_union perimeter) := by
  intro r hr
  have hsub := (get_gdf_rows_spec h r hr).2
  have h1 : r.geom ⊆ Geometry.buffer (clipRadius kwargs) (unary_union perimeter) :=
    hsub.trans (perimeterWithTolerance_subset perimeter (clipRadius kwargs))
  refine ⟨h1, fun h0 => ?_⟩
  rw [h0, buffer_zero] at h1
  exact h1

/-- C1 witness: a concrete successful get_gdf call whose kept geometry is
contained in the buffered perimeter. -/
theorem get_gdf_clipped_to_buffered_perimeter_w :
    get_gdf envB "building" gUnit [("perimeter_tolerance", PVal.int 2)] =
      Except.ok gOff ∧
    ∀ r ∈ gOff.rows,
      r.geom ⊆ Geometry.buffer (clipRadius [("perimeter_tolerance", PVal.int 2)])
        (unary_union gUnit) ∧
      (clipRadius [("perimeter_tolerance", PVal.int 2)] = 0 →
        r.geom ⊆ unary_union gUnit) :=
  ⟨by decide,
   get_gdf_clipped_to_buffered_perimeter envB "building" gUnit
     [("perimeter_tolerance", PVal.int 2)] gOff (by decide)⟩

/-- C5 counterexample: an empty intersection does not raise.  With a
fetch that succeeds but returns a geometry disjoint from the perimeter,
get_gdf silently returns an empty GeoDataFrame instead of propagating a
library error. -/
theorem empty_intersection_not_error_cex :
    envFar.geometries_from_polygon
      ((perimeterWithTolerance gUnit 0).bboxGeom) (tagsArg PVal.none_) =
      Except.ok gFar ∧
    gFar.rows ≠ [] ∧
    get_gdf envFar "building" gUnit [] = Except.ok ⟨[], CRS.epsg4326⟩ :=
  ⟨by decide, by decide, by decide⟩

/-- C5 (amended): the module implements no error handling of its own:
an error raised by an underlying library call propagates to the caller
unchanged — from every fetch branch of get_gdf (elevation helpers,
street-network graph, coastline / generic tags, and the malformed-OSM-id
lookup, all collected in fetchLayer), from the boundary/geocoding stage
of get_perimeter (an unresolvable address), and through get_gdfs whether
the failure happens while building the perimeter or while fetching any
layer; but an empty intersection is not a failure — when the fetch
succeeds and every fetched geometry misses the buffered perimeter,
get_gdf returns an empty GeoDataFrame rather than an error. -/
theorem get_gdf_error_propagation (env : OSMEnv) (layer : String)
    (perimeter : GeoDataFrame) (kwargs : Kwargs) (query : Query)
    (radius : Option ℤ) (ratio : ℤ) (dilate : Option ℤ) (rot : ℤ)
    (pkwargs : Kwargs) (layers_dict : List (String × Kwargs))
    (e : PyErr) (gdf : GeoDataFrame) :
    (fetchLayer env layer perimeter kwargs
        ((perimeterWithTolerance perimeter (clipRadius kwargs)).bboxGeom) =
        Except.error e →
      get_gdf env layer perimeter kwargs = Except.error e) ∧
    (perimeterSource env query radius ratio rot pkwargs = Except.error e →
      get_perimeter env query radius ratio dilate rot pkwargs = Except.error e) ∧
    (∀ pk, perimeterKwargsStep layers_dict = Except.ok pk →
      get_perimeter env query radius ratio dilate rot pk = Except.error e →
      (get_gdfs env query layers_dict radius ratio dilate rot).1 =
        Except.error e) ∧
    (∀ pk P, perimeterKwargsStep layers_dict = Except.ok pk →
      get_perimeter env query radius ratio dilate rot pk = Except.ok P →
      layerResults env P layers_dict = Except.error e →
      (get_gdfs env query layers_dict radius ratio dilate rot).1 =
        Except.error e) ∧
    (fetchLayer env layer perimeter kwargs
        ((perimeterWithTolerance perimeter (clipRadius kwargs)).bboxGeom) =
        Except.ok gdf →
      (∀ r ∈ gdf.rows,
        r.geom ∩ perimeterWithTolerance perimeter (clipRadius kwargs) = ∅) →
      get_gdf env layer perimeter kwargs = Except.ok ⟨[], gdf.crs⟩) := by
  refine ⟨?_, ?_, ?_, ?_, ?_⟩
  · intro hE
    rw [get_gdf_eq_map, hE]
    rfl
  · intro hE
    unfold get_perimeter
    rw [hE, except_error_bind]
  · intro pk hpk herr
    rw [get_gdfs_fst_eq, hpk, except_ok_bind, herr, except_error_bind]
  · intro pk P hpk hP herr
    rw [get_gdfs_fst_eq, hpk, except_ok_bind, hP, except_ok_bind, herr,
      except_error_bind]
  · intro hOk hAll
    rw [get_gdf_eq_map, hOk]
    have hnil : ((gdf.rows.map fun r =>
        GRow.mk r.idx (r.geom ∩ perimeterWithTolerance perimeter (clipRadius kwargs))).filter
        (fun r => !(r.geom = (∅ : Geometry)))) = [] := by
      rw [List.filter_eq_nil_iff]
      intro a ha
      rw [List.mem_map] at ha
      obtain ⟨r0, hr0, hfr⟩ := ha
      rw [← hfr]
      simp only [Bool.not_eq_true', decide_eq_false_iff_not, not_not]
      exact hAll r0 hr0
    show Except.ok
        (⟨((gdf.rows.map fun r =>
            GRow.mk r.idx (r.geom ∩ perimeterWithTolerance perimeter (clipRadius kwargs))).filter
            (fun r => !(r.geom = (∅ : Geometry)))), gdf.crs⟩ : GeoDataFrame) =
      Except.ok (⟨[], gdf.crs⟩ : GeoDataFrame)
    rw [hnil]

/-- C5 witness: a failing layer fetch makes get_gdf fail with the same
library error; an unresolvable address makes get_perimeter, and hence
get_gdfs, fail with the geocoder's error; a failing layer fetch makes
get_gdfs fail with the fetch error; and a successful fetch disjoint
from the perimeter makes get_gdf return an empty result, not an
error. -/
theorem get_gdf_error_propagation_w :
    get_gdf envErr "building" gUnit [] = Except.error (PyErr.libError "overpass") ∧
    get_perimeter envGeoErr (Query.str "Nowhere") none 1 (some 0) 0 [] =
      Except.error (PyErr.libError "unresolvable") ∧
    (get_gdfs envGeoErr (Query.str "Nowhere") [("building", [])]
        none 1 (some 0) 0).1 = Except.error (PyErr.libError "unresolvable") ∧
    (get_gdfs envErr (Query.gdf gUnit) [("building", [])]
        none 1 (some 0) 0).1 = Except.error (PyErr.libError "overpass") ∧
    get_gdf envFar "building" gUnit [] = Except.ok ⟨[], CRS.epsg4326⟩ :=
  ⟨(get_gdf_error_propagation envErr "building" gUnit [] (Query.gdf gUnit)
      none 1 (some 0) 0 [] [] (PyErr.libError "overpass") gUnit).1 (by decide),
   (get_gdf_error_propagation envGeoErr "building" gUnit [] (Query.str "Nowhere")
      none 1 (some 0) 0 [] [] (PyErr.libError "unresolvable") gUnit).2.1 (by decide),
   (get_gdf_error_propagation envGeoErr "building" gUnit [] (Query.str "Nowhere")
      none 1 (some 0) 0 [] [("building", [])]
      (PyErr.libError "unresolvable") gUnit).2.2.1 [] (by decide) (by decide),
   (get_gdf_error_propagation envErr "building" gUnit [] (Query.gdf gUnit)
      none 1 (some 0) 0 [] [("building", [])]
      (PyErr.libError "overpass") gUnit).2.2.2.1 [] gUnit
      (by decide) (by decide) (by decide),
   (get_gdf_error_propagation envFar "building" gUnit [] (Query.gdf gUnit)
      none 1 (some 0) 0 [] [] (PyErr.libError "overpass") gFar).2.2.2.2
      (by decide) (by decide)⟩

/-- C7: get_gdfs is deterministic: two runs with the same query,
layers_dict, radius, ratio, dilate and angle, against environments whose
external library calls return the same responses, produce the same
output — there is no internal state, concurrency or other source of
variation in the module. -/
theorem get_gdfs_deterministic (e1 e2 : OSMEnv)
    (hg1 : e1.geocode = e2.geocode)
    (hg2 : e1.geocode_to_gdf = e2.geocode_to_gdf)
    (hg3 : e1.graph_from_polygon = e2.graph_from_polygon)
    (hg4 : e1.graph_to_gdfs = e2.graph_to_gdfs)
    (hg5 : e1.geometries_from_polygon = e2.geometries_from_polygon)
    (hg6 : e1.rotate = e2.rotate)
    (hg7 : e1.get_elevation = e2.get_elevation)
    (hg8 : e1.mask_elevation = e2.mask_elevation)
    (hg9 : e1.get_hillshade = e2.get_hillshade)
    (hg10 : e1.get_level_curves = e2.get_level_curves)
    (query : Query) (layers_dict : List (String × Kwargs)) (radius : Option ℤ)
    (ratio : ℤ) (dilate : Option ℤ) (rot : ℤ) :
    get_gdfs e1 query layers_dict radius ratio dilate rot =
      get_gdfs e2 query layers_dict radius ratio dilate rot := by
  have he : e1 = e2 := by
    cases e1
    cases e2
    congr
  rw [he]

/-- C7 witness: a concrete run compared with itself. -/
theorem get_gdfs_deterministic_w :
    get_gdfs envA (Query.gdf gUnit) [("building", [])] none 1 (some 0) 0 =
      get_gdfs envA (Query.gdf gUnit) [("building", [])] none 1 (some 0) 0 :=
  get_gdfs_deterministic envA envA rfl rfl rfl rfl rfl rfl rfl rfl rfl rfl
    (Query.gdf gUnit) [("building", [])] none 1 (some 0) 0

theorem layerResults_spec {env : OSMEnv} {P : GeoDataFrame} :
    ∀ {l : List (String × Kwargs)} {pairs : List (String × GeoDataFrame)},
    layerResults env P l = Except.ok pairs →
    (pairs.map Prod.fst =
      (l.filter (fun lk => !(lk.1 = "perimeter"))).map Prod.fst) ∧
    ((l.map Prod.fst).Nodup →
      ∀ layer kw, (layer, kw) ∈ l → layer ≠ "perimeter" →
        ∃ g, get_gdf env layer P kw = Except.ok g ∧ alookup pairs layer = some g) := by
  intro l
  induction l with
  | nil =>
      intro pairs h
      have hp : pairs = [] := by
        have : Except.ok ([] : List (String × GeoDataFrame)) =
            (Except.ok pairs : Except PyErr (List (String × GeoDataFrame))) := h
        injection this with h2
        exact h2.symm
      subst hp
      exact ⟨by simp, fun _ layer kw hmem _ => absurd hmem (by simp)⟩
  | cons hd tl ih =>
      obtain ⟨layer0, kw0⟩ := hd
      intro pairs h
      by_cases hL : layer0 = "perimeter"
      · subst hL
        rw [layerResults, if_pos rfl] at h
        obtain ⟨hkeys, hvals⟩ := ih h
        constructor
        · rw [hkeys]
          simp [List.filter_cons]
        · intro hnd layer kw hmem hlayer
          rcases List.mem_cons.mp hmem with heq | htl
          · exact absurd (congrArg Prod.fst heq) (by simpa using hlayer)
          · exact hvals (by
              rw [List.map_cons, List.nodup_cons] at hnd
              exact hnd.2) layer kw htl hlayer
      · rw [layerResults, if_neg hL] at h
        obtain ⟨g0, hg0, h2⟩ := except_bind_ok h
        obtain ⟨tail, htail, h3⟩ := except_bind_ok h2
        have hp : pairs = (layer0, g0) :: tail := by
          injection h3 with h4
          exact h4.symm
        subst hp
        obtain ⟨hkeys, hvals⟩ := ih htail
        constructor
        · rw [List.map_cons, hkeys, List.filter_cons]
          simp [hL]
        · intro hnd layer kw hmem hlayer
          rw [List.map_cons, List.nodup_cons] at hnd
          rcases List.mem_cons.mp hmem with heq | htl
          · have h5 : layer = layer0 := congrArg Prod.fst heq
            have h6 : kw = kw0 := congrArg Prod.snd heq
            subst h5; subst h6
            refine ⟨g0, hg0, ?_⟩
            unfold alookup
            rw [if_pos rfl]
          · have hne : layer ≠ layer0 := by
              intro hcontra
              subst hcontra
              exact hnd.1 (List.mem_map.mpr ⟨(layer, kw), htl, rfl⟩)
            obtain ⟨g, hg, hlk⟩ := hvals hnd.2 layer kw htl hlayer
            refine ⟨g, hg, ?_⟩
            unfold alookup
            rw [if_neg hne]
            exact hlk

/-- C2: on success, get_gdfs returns a dictionary whose keys are exactly
the layer names of layers_dict together with "perimeter", and whose value
at each non-perimeter layer name is the result of get_gdf for that layer
with that layer's configuration, against the computed perimeter. -/
theorem get_gdfs_result_spec (env : OSMEnv) (query : Query)
    (layers_dict : List (String × Kwargs)) (radius : Option ℤ) (ratio : ℤ)
    (dilate : Option ℤ) (rot : ℤ) (d : List (String × GeoDataFrame))
    (hnd : (layers_dict.map Prod.fst).Nodup)
    (hok : (get_gdfs env query layers_dict radius ratio dilate rot).1 = Except.ok d) :
    (d.map Prod.fst).toFinset =
      insert "perimeter" (layers_dict.map Prod.fst).toFinset ∧
    ∃ perimeter, alookup d "perimeter" = some perimeter ∧
      ∀ layer kw, (layer, kw) ∈ layers_dict → layer ≠ "perimeter" →
        ∃ g, get_gdf env layer perimeter kw = Except.ok g ∧
          alookup d layer = some g := by
  rw [get_gdfs_fst_eq] at hok
  obtain ⟨pk, hpk, hok2⟩ := except_bind_ok hok
  obtain ⟨P, hP, hok3⟩ := except_bind_ok hok2
  obtain ⟨pairs, hpairs, hok4⟩ := except_bind_ok hok3
  have h5 : ("perimeter", P) :: pairs = d := by
    injection hok4
  subst h5
  obtain ⟨hkeys, hvals⟩ := layerResults_spec hpairs
  constructor
  · ext x
    simp only [List.map_cons, List.toFinset_cons, Finset.mem_insert,
      List.mem_toFinset, hkeys, List.mem_map, List.mem_filter,
      Bool.not_eq_true', decide_eq_false_iff_not]
    constructor
    · rintro (rfl | ⟨lk, ⟨hmem, _⟩, rfl⟩)
      · exact Or.inl rfl
      · exact Or.inr ⟨lk, hmem, rfl⟩
    · rintro (rfl | ⟨lk, hmem, rfl⟩)
      · exact Or.inl rfl
      · by_cases hx : lk.1 = "perimeter"
        · exact Or.inl hx
        · exact Or.inr ⟨lk, ⟨hmem, hx⟩, rfl⟩
  · refine ⟨P, ?_, ?_⟩
    · rw [alookup, if_pos rfl]
    · intro layer kw hmem hlayer
      obtain ⟨g, hg, hlk⟩ := hvals hnd layer kw hmem hlayer
      refine ⟨g, hg, ?_⟩
      rw [alookup, if_neg hlayer]
      exact hlk

/-- C2 witness: a concrete run with a perimeter configuration and one
building layer, whose output dictionary has exactly the keys perimeter
and building with the get_gdf result at building. -/
theorem get_gdfs_result_spec_w :
    (([("perimeter", [("dilate", PVal.int 0)]), ("building", ([] : Kwargs))].map
        Prod.fst).Nodup) ∧
    (get_gdfs envA (Query.gdf gUnit)
        [("perimeter", [("dilate", PVal.int 0)]), ("building", [])]
        none 1 (some 0) 0).1 =
      Except.ok [("perimeter", gUnit), ("building", gUnit)] ∧
    (([("perimeter", gUnit), ("building", gUnit)].map Prod.fst).toFinset =
        insert "perimeter"
          (([("perimeter", [("dilate", PVal.int 0)]),
             ("building", ([] : Kwargs))].map Prod.fst).toFinset) ∧
      ∃ perimeter,
        alookup [("perimeter", gUnit), ("building", gUnit)] "perimeter" =
          some perimeter ∧
        ∀ layer kw,
          (layer, kw) ∈ [("perimeter", [("dilate", PVal.int 0)]),
                         ("building", ([] : Kwargs))] →
          layer ≠ "perimeter" →
          ∃ g, get_gdf envA layer perimeter kw = Except.ok g ∧
            alookup [("perimeter", gUnit), ("building", gUnit)] layer = some g) :=
  ⟨by decide, by decide,
   get_gdfs_result_spec envA (Query.gdf gUnit)
     [("perimeter", [("dilate", PVal.int 0)]), ("building", [])]
     none 1 (some 0) 0 [("perimeter", gUnit), ("building", gUnit)]
     (by decide) (by decide)⟩

/-- C6 counterexample: get_perimeter does not maintain non-emptiness.
A negative dilation erodes the one-point user polygon to the empty
geometry, and get_perimeter returns that empty perimeter without
complaint. -/
theorem get_perimeter_empty_cex :
    get_perimeter envA (Query.gdf gUnit) none 1 (some (-1)) 0 [] =
      Except.ok ⟨[⟨0, (∅ : Geometry)⟩], CRS.epsg4326⟩ ∧
    unary_union (⟨[⟨0, (∅ : Geometry)⟩], CRS.epsg4326⟩ : GeoDataFrame) = ∅ :=
  ⟨by decide, by decide⟩

/-- C6 (amended): every perimeter returned by get_perimeter is in
EPSG:4326 (the function always ends with to_crs(4326)), but validity and
non-emptiness are not enforced: non-emptiness holds for a user-provided
polygon only when the polygon region is non-empty and the dilation is
absent or non-negative. -/
theorem get_perimeter_crs_nonempty (env : OSMEnv) (query : Query)
    (radius : Option ℤ) (ratio : ℤ) (dilate : Option ℤ) (rot : ℤ)
    (pkwargs : Kwargs) (out : GeoDataFrame)
    (hok : get_perimeter env query radius ratio dilate rot pkwargs = Except.ok out) :
    out.crs = CRS.epsg4326 ∧
    (∀ g, query = Query.gdf g → optTruthy radius = false →
      (dilate = none ∨ ∃ d, dilate = some d ∧ 0 ≤ d) →
      unary_union g ≠ ∅ → unary_union out ≠ ∅) := by
  unfold get_perimeter at hok
  obtain ⟨P0, hP0, hpure⟩ := except_bind_ok hok
  have hout : to_crs4326 (dilateStep dilate (project_gdf P0)) = out := by
    injection hpure
  constructor
  · rw [← hout]
    rfl
  · intro g hq hrad hdil hne
    subst hq
    unfold perimeterSource at hP0
    have hcond : ¬(optTruthy radius = true) := by
      rw [hrad]
      exact Bool.false_ne_true
    rw [if_neg hcond] at hP0
    have hP0a : (Except.ok g : Except PyErr GeoDataFrame) = Except.ok P0 := hP0
    have hgP : g = P0 := by
      injection hP0a
    subst hgP
    rw [← hout]
    rcases hdil with rfl | ⟨dd, rfl, hd0⟩
    · exact hne
    · obtain ⟨p, hp⟩ := Finset.nonempty_iff_ne_empty.mpr hne
      rw [mem_unary_union] at hp
      obtain ⟨row, hrow, hpg⟩ := hp
      apply Finset.nonempty_iff_ne_empty.mp
      refine ⟨p, ?_⟩
      rw [mem_unary_union]
      refine ⟨⟨row.idx, Geometry.buffer dd row.geom⟩, ?_, mem_buffer_self hd0 hpg⟩
      exact List.mem_map.mpr ⟨row, hrow, rfl⟩

/-- C6 witness: a concrete successful get_perimeter call, in EPSG:4326
and with the non-emptiness side conditions satisfied. -/
theorem get_perimeter_crs_nonempty_w :
    get_perimeter envA (Query.gdf gUnit) none 1 (some 0) 0 [] = Except.ok gUnit ∧
    (gUnit.crs = CRS.epsg4326 ∧
      (∀ g, Query.gdf gUnit = Query.gdf g → optTruthy none = false →
        ((some (0 : ℤ)) = none ∨ ∃ d, (some (0 : ℤ)) = some d ∧ 0 ≤ d) →
        unary_union g ≠ ∅ → unary_union gUnit ≠ ∅)) :=
  ⟨by decide,
   get_perimeter_crs_nonempty envA (Query.gdf gUnit) none 1 (some 0) 0 [] gUnit
     (by decide)⟩
